import Mathlib

/-!
Verification of the `toon-token-savings` repository.

The Python sources are embedded shallowly:
* `token_counter.py` → `fallback_token_count`, `count_tokens`, `compare_formats`,
  `normalise_usage`;
* `models_info.py` → `ModelInfo`, `get_open_source_models`, `get_proprietary_models`;
* `app.py` → `collect_models`;
* `server.py` → `upload`;
* `visualization.py` → `plot_radar` normalisation calls and the spiral radius formula.

External effects (the `tiktoken` tokenizer, the `toon` codec, `json` parsing of raw
upload bytes) are threaded through an explicit environment record `Env`: each external
call becomes a field of `Env`, and fallible calls return `Except`/`Option` values.
Python floats are modelled as rationals (the numbers involved are exact counts and
exact arithmetic on them), Python ints as `Int`/`Nat` as appropriate, and the
real-valued chart geometry as `Real`.
-/

namespace ToonTokenSavings

/-! ### Models of the Python string methods used by the sources -/

/-- Model of Python `str.lower()` restricted to ASCII case folding, which is all the
sources rely on (selectors and the `".json"` suffix are ASCII). -/
def pyLower (s : String) : String := ⟨s.data.map Char.toLower⟩

/-- Model of Python `str.strip()`: drop whitespace from both ends. -/
def pyStrip (s : String) : String :=
  ⟨((s.data.dropWhile Char.isWhitespace).reverse.dropWhile Char.isWhitespace).reverse⟩

/-- Model of Python `str.endswith(t)`. -/
def pyEndsWith (s t : String) : Bool := t.data.isSuffixOf s.data

/-- Model of Python truthiness of an optional string (`None` and `""` are falsy),
as used by `server.py`'s `if toon_str is None and toon_error:`. -/
def pyTruthy : Option String → Bool
  | none => false
  | some s => s != ""

/-! ### Data model -/

/-- `token_counter.compare_formats` returns `{'json_tokens': float, 'toon_tokens':
float, 'savings': float}`; floats are modelled as rationals. -/
structure TokenComparisonResult where
  json_tokens : ℚ
  toon_tokens : ℚ
  savings : ℚ
deriving DecidableEq, Repr

/-- The exceptions `dataset.to_toon` can raise, as caught by `server.upload`:
a `RuntimeError` (codec missing) or any other exception, each carrying `str(e)`. -/
inductive ToonFailure where
  | runtimeError (msg : String)
  | otherError (msg : String)
deriving DecidableEq, Repr

/-- The external world as seen by the embedded code: the `tiktoken` tokenizer
(availability flag, `get_encoding` which may fail, `encoding_for_model`),
the dataset layer's JSON/TOON serialisers, and the `json` module calls made by
`server.py`.  `C` is the type of raw uploaded contents, `D` the type of parsed
JSON-compatible data. -/
structure Env (C D : Type) where
  tiktoken_available : Bool
  get_encoding : String → Option (String → List ℕ)
  encoding_for_model : String → String → List ℕ
  to_json_string : D → String
  to_toon : D → Except ToonFailure String
  json_loads : C → Option D
  json_dumps : D → String

/-! ### token_counter.py -/

/-- `_fallback_token_count`: `(len(text) + 3) // 4`. -/
def fallback_token_count (text : String) : ℕ := (text.length + 3) / 4

/-- `count_tokens(text, model="cl100k_base")`: if `tiktoken` is unavailable, use the
fallback heuristic; otherwise obtain an encoding by name, falling back to
`encoding_for_model` when the lookup by name fails, and return the length of the
encoded token sequence. -/
def count_tokens {C D : Type} (env : Env C D) (text : String)
    (model : String := "cl100k_base") : ℕ :=
  if env.tiktoken_available = false then fallback_token_count text
  else
    match env.get_encoding model with
    | some encoding => (encoding text).length
    | none => (env.encoding_for_model model text).length

/-- `compare_formats(data, model="cl100k_base")`: serialise to JSON, count tokens;
try to serialise to TOON and count, and on any failure set `toon_tokens` to
`json_tokens`; `savings = (json_tokens - toon_tokens) / json_tokens * 100` when
`json_tokens > 0`, else `0`; all three returned as floats. -/
def compare_formats {C D : Type} (env : Env C D) (data : D)
    (model : String := "cl100k_base") : TokenComparisonResult :=
  let json_str := env.to_json_string data
  let json_tokens := count_tokens env json_str model
  let toon_tokens :=
    match env.to_toon data with
    | .ok toon_str => count_tokens env toon_str model
    | .error _ => json_tokens
  let savings : ℚ :=
    if 0 < json_tokens then ((json_tokens : ℚ) - (toon_tokens : ℚ)) / (json_tokens : ℚ) * 100
    else 0
  ⟨(json_tokens : ℚ), (toon_tokens : ℚ), savings⟩

/-- `normalise_usage(token_count, context_limit)`: raise
`ValueError("Context limit must be positive")` when `context_limit <= 0`, else
return `min(token_count / context_limit, 1.0)`.  The token count is a rational
because the call sites pass the float fields of a comparison result. -/
def normalise_usage (token_count : ℚ) (context_limit : ℤ) : Except String ℚ :=
  if context_limit ≤ 0 then .error "Context limit must be positive"
  else .ok (min (token_count / (context_limit : ℚ)) 1)

/-! ### models_info.py -/

/-- The `ModelInfo` dataclass.  String fields keep the source's exact characters
(` ` no-break space, `‑` non-breaking hyphen, `–` en dash). -/
structure ModelInfo where
  name : String
  parameters : String
  context : ℤ
  strengths : String
  citation : String
deriving DecidableEq, Repr

/-- `get_open_source_models()`. -/
def get_open_source_models : List ModelInfo :=
  [ ⟨"Mistral 7B Instruct", "7 B", 8000,
      "Strong reasoning and code generation; Apache 2.0 licensed",
      "420364458335633"⟩,
    ⟨"XGen 7B 8K", "7 B", 8192,
      "Efficient long‑sequence modelling",
      "911101338263397"⟩,
    ⟨"Llama 2 7B", "7 B", 4096,
      "Balanced general‑purpose performance",
      "755067816323875"⟩ ]

/-- `get_proprietary_models()`. -/
def get_proprietary_models : List ModelInfo :=
  [ ⟨"GPT‑4 Turbo", "–", 128000,
      "General‑purpose; high performance",
      "606191499054299"⟩,
    ⟨"GPT‑4.1", "–", 1000000,
      "Improved coding and instruction following",
      "135591285725828"⟩,
    ⟨"Claude 3 Sonnet", "–", 200000,
      "Extended thinking with tool use",
      "73988196732927"⟩,
    ⟨"Claude 4.5 (beta)", "–", 1000000,
      "Beta mode; 1 M context for tier‑4 organisations",
      "73988196732927"⟩,
    ⟨"Gemini 2.5 Pro", "–", 1000000,
      "Native multimodality; improved reasoning",
      "264535844435865"⟩,
    ⟨"DeepSeek V3.2", "–", 128000,
      "JSON output mode; cost‑effective pricing",
      "196653781099666"⟩,
    ⟨"Phi‑3 Medium", "–", 128000,
      "Small but capable; available in 4 k and 128 k variants",
      "593591340691591"⟩,
    ⟨"Grok 4 Fast", "–", 2000000,
      "Function calling; structured outputs; reasoning",
      "2584474606170"⟩ ]

/-! ### app.py -/

/-- The de-duplication loop at the end of `collect_models`: keep the first
occurrence of each name, tracking names already seen. -/
def dedup_go : List ModelInfo → List String → List ModelInfo
  | [], _ => []
  | m :: ms, seen =>
      if m.name ∈ seen then dedup_go ms seen
      else m :: dedup_go ms (m.name :: seen)

/-- The body of `collect_models` after `selection = selection.strip().lower()`:
the whole normalised selector is matched as one token against the category
names, and the concatenated catalogs are de-duplicated by name. -/
def collect_models_normalised (selection : String) : List ModelInfo :=
  dedup_go
    ((if selection = "open-source" ∨ selection = "open" ∨ selection = "all" then
        get_open_source_models
      else []) ++
     (if selection = "proprietary" ∨ selection = "closed" ∨ selection = "all" then
        get_proprietary_models
      else []))
    []

/-- `collect_models(selection)`: trim and lowercase, then select. -/
def collect_models (selection : String) : List ModelInfo :=
  collect_models_normalised (pyLower (pyStrip selection))

/-! ### visualization.py -/

/-- The normalisation calls `plot_radar` makes for one token-count series
(`values_json` with `result['json_tokens']`, `values_toon` with
`result['toon_tokens']`): one `normalise_usage` call per model, against that
model's `context`. -/
def plot_radar_values (token_count : ℚ) (models : List ModelInfo) :
    List (Except String ℚ) :=
  models.map (fun m => normalise_usage token_count m.context)

/-! ### server.py -/

/-- An HTTP error response raised via `HTTPException(status_code, detail)`. -/
structure HTTPError where
  status : ℕ
  detail : String
deriving DecidableEq, Repr

/-- The success payload of the `/upload` endpoint. -/
structure UploadResponse where
  toon : Option String
  toon_error : Option String
  comparison : TokenComparisonResult
  original_json : String
deriving Repr

/-- The message `upload` records for a TOON failure: `str(e)` for a
`RuntimeError`, and `"Error encoding to TOON: " + str(e)` for any other
exception. -/
def toon_error_of : ToonFailure → String
  | .runtimeError msg => msg
  | .otherError msg => "Error encoding to TOON: " ++ msg

/-- The `/upload` endpoint (the graceful-degradation variant in `server.py`):
reject non-`.json` filenames with 400, reject unparseable bytes with 400;
then attempt TOON encoding, recording rather than propagating its failure,
compute the comparison, and if the encoding failed (with a truthy message)
force `toon_tokens = json_tokens` and `savings = 0` in the returned
comparison. -/
def upload {C D : Type} (env : Env C D) (filename : String) (contents : C) :
    Except HTTPError UploadResponse :=
  if pyEndsWith (pyLower filename) ".json" = false then
    .error ⟨400, "Only JSON files are supported"⟩
  else
    match env.json_loads contents with
    | none => .error ⟨400, "Invalid JSON file"⟩
    | some data =>
        let toon_pair : Option String × Option String :=
          match env.to_toon data with
          | .ok s => (some s, none)
          | .error e => (none, some (toon_error_of e))
        let result := compare_formats env data
        let result :=
          if toon_pair.1 = none ∧ pyTruthy toon_pair.2 = true then
            { result with toon_tokens := result.json_tokens, savings := 0 }
          else result
        .ok ⟨toon_pair.1, toon_pair.2, result, env.json_dumps data⟩

/-! ### visualization.py, spiral chart -/

/-- The largest sampled angle: `angles = np.linspace(0, 4π, 500)` has maximum
`4π`. -/
noncomputable def spiral_theta_max : ℝ := 4 * Real.pi

/-- `plot_spiral`'s radius for series value `v` at angle `θ`:
`np.sqrt(v / max_tokens) * angles / angles.max()`. -/
noncomputable def spiral_radius (v max_tokens θ : ℝ) : ℝ :=
  Real.sqrt (v / max_tokens) * (θ / spiral_theta_max)

/-- `plot_spiral`'s divisor: `max_tokens = max(json_tokens, toon_tokens)`. -/
def spiral_max_tokens (result : TokenComparisonResult) : ℚ :=
  max result.json_tokens result.toon_tokens

/-! ### Example values used by witnesses -/

/-- Example environment: `tiktoken` and the TOON codec are both unavailable, so
token counting uses the fallback heuristic and TOON serialisation fails with a
`RuntimeError`. -/
def envNoToon : Env Unit Unit where
  tiktoken_available := false
  get_encoding := fun _ => none
  encoding_for_model := fun _ text => text.data.map Char.toNat
  to_json_string := fun _ => "[]"
  to_toon := fun _ => .error (.runtimeError "toon-format package missing")
  json_loads := fun _ => some ()
  json_dumps := fun _ => "[]"

/-- The first open-source catalog record. -/
def mistralModel : ModelInfo :=
  ⟨"Mistral 7B Instruct", "7 B", 8000,
    "Strong reasoning and code generation; Apache 2.0 licensed",
    "420364458335633"⟩

/-! ### Arithmetic helper -/

/-- The integer expression `(n + 3) / 4` computes `⌈n / 4⌉`. -/
theorem add_three_div_four_eq_ceil (n : ℕ) : (n + 3) / 4 = ⌈(n : ℚ) / 4⌉₊ := by
  have h1 : n ≤ 4 * ((n + 3) / 4) := by omega
  have hle : ⌈(n : ℚ) / 4⌉₊ ≤ (n + 3) / 4 := by
    rw [Nat.ceil_le, div_le_iff₀ (by norm_num : (0:ℚ) < 4)]
    have : ((n : ℕ) : ℚ) ≤ ((4 * ((n + 3) / 4) : ℕ) : ℚ) := by exact_mod_cast h1
    push_cast at this ⊢
    linarith
  have hge : (n + 3) / 4 ≤ ⌈(n : ℚ) / 4⌉₊ := by
    have h2 : (n : ℚ) / 4 ≤ (⌈(n : ℚ) / 4⌉₊ : ℚ) := Nat.le_ceil _
    rw [div_le_iff₀ (by norm_num : (0:ℚ) < 4)] at h2
    have h3 : (n : ℚ) ≤ ((4 * ⌈(n : ℚ) / 4⌉₊ : ℕ) : ℚ) := by push_cast; linarith
    have h4 : n ≤ 4 * ⌈(n : ℚ) / 4⌉₊ := by exact_mod_cast h3
    omega
  exact Nat.le_antisymm hge hle

/-! ### Claim theorems -/

/-- C2: `normalise_usage` returns `min(token_count / context_limit, 1.0)` whenever
`context_limit > 0`, and fails with the invalid-input error whenever
`context_limit ≤ 0`; in particular `normalise_usage 50 100 = 0.5`,
`normalise_usage 200 100 = 1.0`, and `normalise_usage tc 0` fails for every `tc`. -/
theorem normalise_usage_spec :
    (∀ (tc : ℚ) (cl : ℤ), 0 < cl →
        normalise_usage tc cl = .ok (min (tc / (cl : ℚ)) 1)) ∧
    (∀ (tc : ℚ) (cl : ℤ), cl ≤ 0 →
        normalise_usage tc cl = .error "Context limit must be positive") ∧
    normalise_usage 50 100 = .ok (1/2) ∧
    normalise_usage 200 100 = .ok 1 ∧
    (∀ tc : ℚ, normalise_usage tc 0 = .error "Context limit must be positive") := by
  refine ⟨?_, ?_, ?_, ?_, ?_⟩
  · intro tc cl h
    unfold normalise_usage
    rw [if_neg (by omega)]
  · intro tc cl h
    unfold normalise_usage
    rw [if_pos h]
  · unfold normalise_usage
    rw [if_neg (by norm_num)]
    have : min ((50 : ℚ) / ((100 : ℤ) : ℚ)) 1 = 1/2 := by norm_num
    rw [this]
  · unfold normalise_usage
    rw [if_neg (by norm_num)]
    have : min ((200 : ℚ) / ((100 : ℤ) : ℚ)) 1 = 1 := by norm_num
    rw [this]
  · intro tc
    unfold normalise_usage
    rw [if_pos le_rfl]

/-- Witness for C2 at `token_count = 50`, `context_limit = 100`. -/
theorem normalise_usage_spec_witness :
    normalise_usage 50 100 = .ok (min ((50 : ℚ) / ((100 : ℤ) : ℚ)) 1) :=
  normalise_usage_spec.1 50 100 (by norm_num)

/-- C6 counterexample: at `token_count = -1`, `context_limit = 100` (both within the
declared `int` domain of `normalise_usage`), the returned value is `-1/100`, which
does not lie between 0 and 1. -/
theorem normalise_usage_range_counterexample :
    normalise_usage (-1) 100 = .ok (-(1/100)) ∧ ¬ (0 ≤ (-(1/100) : ℚ)) := by
  constructor
  · unfold normalise_usage
    rw [if_neg (by norm_num)]
    have : min ((-1 : ℚ) / ((100 : ℤ) : ℚ)) 1 = -(1/100) := by
      rw [min_eq_left (by norm_num)]
      norm_num
    rw [this]
  · norm_num

/-- C6 (amended): for every `token_count ≥ 0` and every `context_limit > 0`, the
value returned by `normalise_usage` lies between 0 and 1 inclusive. -/
theorem normalise_usage_in_unit_interval (tc : ℚ) (cl : ℤ)
    (h0 : 0 ≤ tc) (h1 : 0 < cl) :
    ∃ v, normalise_usage tc cl = .ok v ∧ 0 ≤ v ∧ v ≤ 1 := by
  refine ⟨min (tc / (cl : ℚ)) 1, ?_, ?_, min_le_right _ _⟩
  · unfold normalise_usage
    rw [if_neg (by omega)]
  · exact le_min (div_nonneg h0 (by exact_mod_cast h1.le)) zero_le_one

/-- Witness for amended C6 at `token_count = 50`, `context_limit = 100`. -/
theorem normalise_usage_in_unit_interval_witness :
    ∃ v, normalise_usage 50 100 = .ok v ∧ 0 ≤ v ∧ v ≤ 1 :=
  normalise_usage_in_unit_interval 50 100 (by norm_num) (by norm_num)

/-- C7: when the tokenizer library is unavailable, `count_tokens` returns the
fallback heuristic `(len(text) + 3) // 4`, which equals `⌈len(text) / 4⌉` for every
length, and the result is a non-negative integer. -/
theorem count_tokens_unavailable_heuristic :
    (∀ (C D : Type) (env : Env C D) (text model : String),
        env.tiktoken_available = false →
        count_tokens env text model = (text.length + 3) / 4) ∧
    (∀ n : ℕ, (n + 3) / 4 = ⌈(n : ℚ) / 4⌉₊) ∧
    (∀ text : String, fallback_token_count text = ⌈(text.length : ℚ) / 4⌉₊) ∧
    (∀ text : String, 0 ≤ fallback_token_count text) := by
  refine ⟨?_, add_three_div_four_eq_ceil, ?_, fun _ => Nat.zero_le _⟩
  · intro C D env text model h
    simp [count_tokens, h, fallback_token_count]
  · intro text
    exact add_three_div_four_eq_ceil text.length

/-- Witness for C7: with `tiktoken` unavailable, counting the two-character text
`"[]"` yields `(2 + 3) / 4 = 1`. -/
theorem count_tokens_unavailable_heuristic_witness :
    count_tokens envNoToon "[]" "cl100k_base" = ("[]".length + 3) / 4 :=
  count_tokens_unavailable_heuristic.1 Unit Unit envNoToon "[]" "cl100k_base" rfl

/-- C8: the open-source catalog is the ordered list of exactly 3 records with the
stated names and context sizes (each carrying a parameter-count label, strengths
description and citation id), and the proprietary catalog is the ordered list of
exactly 8 records with the stated names and context sizes, all with parameters
shown as the en-dash placeholder. -/
theorem catalogs_spec :
    get_open_source_models.length = 3 ∧
    get_open_source_models.map ModelInfo.name =
      ["Mistral 7B Instruct", "XGen 7B 8K", "Llama 2 7B"] ∧
    get_open_source_models.map ModelInfo.context = [8000, 8192, 4096] ∧
    get_open_source_models.map ModelInfo.parameters = ["7 B", "7 B", "7 B"] ∧
    get_open_source_models.map ModelInfo.strengths =
      ["Strong reasoning and code generation; Apache 2.0 licensed",
       "Efficient long‑sequence modelling",
       "Balanced general‑purpose performance"] ∧
    get_open_source_models.map ModelInfo.citation =
      ["420364458335633", "911101338263397", "755067816323875"] ∧
    get_proprietary_models.length = 8 ∧
    get_proprietary_models.map ModelInfo.name =
      ["GPT‑4 Turbo", "GPT‑4.1", "Claude 3 Sonnet", "Claude 4.5 (beta)",
       "Gemini 2.5 Pro", "DeepSeek V3.2", "Phi‑3 Medium", "Grok 4 Fast"] ∧
    get_proprietary_models.map ModelInfo.context =
      [128000, 1000000, 200000, 1000000, 1000000, 128000, 128000, 2000000] ∧
    get_proprietary_models.map ModelInfo.parameters =
      ["–", "–", "–", "–", "–", "–", "–", "–"] :=
  ⟨rfl, rfl, rfl, rfl, rfl, rfl, rfl, rfl, rfl, rfl⟩

/-- When the normalised selector matches none of the recognised category tokens,
`collect_models` selects nothing. -/
theorem collect_models_normalised_empty (t : String)
    (h1 : t ≠ "open-source") (h2 : t ≠ "open") (h3 : t ≠ "all")
    (h4 : t ≠ "proprietary") (h5 : t ≠ "closed") :
    collect_models_normalised t = [] := by
  simp [collect_models_normalised, h1, h2, h3, h4, h5, dedup_go]

/-- C3: `collect_models` matches the whole trimmed and lowercased selector as one
token: the open-source catalog is included exactly for `"open-source"`, `"open"`
or `"all"` (witnessed by the first open-source name), the proprietary catalog
exactly for `"proprietary"`, `"closed"` or `"all"` (witnessed by the first
proprietary name), any other selector yields nothing; `collect_models "all"`
is the 11-record concatenation of the catalogs with no duplicate names,
`collect_models "open-source"` is exactly the open-source catalog in order, and
the command-line default string `"open-source,proprietary"` yields zero models. -/
theorem collect_models_spec :
    (∀ s : String,
      ((∃ m ∈ collect_models s, m.name = "Mistral 7B Instruct") ↔
          pyLower (pyStrip s) ∈ (["open-source", "open", "all"] : List String)) ∧
      ((∃ m ∈ collect_models s, m.name = "GPT‑4 Turbo") ↔
          pyLower (pyStrip s) ∈ (["proprietary", "closed", "all"] : List String)) ∧
      (collect_models s ≠ [] ↔
          pyLower (pyStrip s) ∈
            (["open-source", "open", "all", "proprietary", "closed"] : List String))) ∧
    collect_models "all" = get_open_source_models ++ get_proprietary_models ∧
    (collect_models "all").length = 11 ∧
    ((collect_models "all").map ModelInfo.name).Nodup ∧
    collect_models "open-source" = get_open_source_models ∧
    collect_models "open-source,proprietary" = [] := by
  refine ⟨?_, by decide, by decide, by decide, by decide, by decide⟩
  intro s
  have hs : collect_models s = collect_models_normalised (pyLower (pyStrip s)) := rfl
  rw [hs]
  generalize pyLower (pyStrip s) = t
  by_cases h1 : t = "open-source"
  · subst h1; refine ⟨by decide, by decide, by decide⟩
  by_cases h2 : t = "open"
  · subst h2; refine ⟨by decide, by decide, by decide⟩
  by_cases h3 : t = "all"
  · subst h3; refine ⟨by decide, by decide, by decide⟩
  by_cases h4 : t = "proprietary"
  · subst h4; refine ⟨by decide, by decide, by decide⟩
  by_cases h5 : t = "closed"
  · subst h5; refine ⟨by decide, by decide, by decide⟩
  rw [collect_models_normalised_empty t h1 h2 h3 h4 h5]
  simp [h1, h2, h3, h4, h5]

/-- Elements produced by the de-duplication loop come from its input list. -/
theorem mem_dedup_go {m : ModelInfo} :
    ∀ (l : List ModelInfo) (seen : List String), m ∈ dedup_go l seen → m ∈ l := by
  intro l
  induction l with
  | nil => intro seen h; simp [dedup_go] at h
  | cons a l ih =>
      intro seen h
      by_cases ha : a.name ∈ seen
      · rw [dedup_go, if_pos ha] at h
        exact List.mem_cons_of_mem _ (ih _ h)
      · rw [dedup_go, if_neg ha] at h
        rcases List.mem_cons.mp h with h | h
        · exact h ▸ List.mem_cons_self _ _
        · exact List.mem_cons_of_mem _ (ih _ h)

/-- Every model selected by `collect_models` is a catalog record. -/
theorem collect_models_subset (s : String) (m : ModelInfo)
    (hm : m ∈ collect_models s) :
    m ∈ get_open_source_models ++ get_proprietary_models := by
  have h := mem_dedup_go _ _ hm
  rw [List.mem_append] at h ⊢
  rcases h with h | h
  · split_ifs at h with hc
    · exact Or.inl h
    · simp at h
  · split_ifs at h with hc
    · exact Or.inr h
    · simp at h

/-- C10: every catalog record has a positive context window, so every
`normalise_usage` call `plot_radar` makes for a selected model list drawn from
the catalogs succeeds — the invalid-input branch is unreachable from the radar
chart. -/
theorem radar_normalisation_safe :
    (∀ m ∈ get_open_source_models ++ get_proprietary_models, 0 < m.context) ∧
    (∀ (s : String) (tc : ℚ) (m : ModelInfo), m ∈ collect_models s →
        normalise_usage tc m.context = .ok (min (tc / (m.context : ℚ)) 1)) ∧
    (∀ (s : String) (tc : ℚ),
        ∀ e ∈ plot_radar_values tc (collect_models s), ∃ v, e = Except.ok v) := by
  have hctx : ∀ m ∈ get_open_source_models ++ get_proprietary_models, 0 < m.context := by
    decide
  have hok : ∀ (s : String) (tc : ℚ) (m : ModelInfo), m ∈ collect_models s →
      normalise_usage tc m.context = .ok (min (tc / (m.context : ℚ)) 1) := by
    intro s tc m hm
    have h := hctx m (collect_models_subset s m hm)
    unfold normalise_usage
    rw [if_neg (by omega)]
  refine ⟨hctx, hok, ?_⟩
  intro s tc e he
  rw [plot_radar_values, List.mem_map] at he
  obtain ⟨m, hm, rfl⟩ := he
  exact ⟨min (tc / (m.context : ℚ)) 1, hok s tc m hm⟩

/-- Witness for C10: the first open-source record is selected by `"all"`, has a
positive context, and normalising 100 tokens against it succeeds. -/
theorem radar_normalisation_safe_witness :
    0 < mistralModel.context ∧
    normalise_usage 100 mistralModel.context =
      .ok (min ((100 : ℚ) / (mistralModel.context : ℚ)) 1) :=
  ⟨radar_normalisation_safe.1 mistralModel (by decide),
   radar_normalisation_safe.2.1 "all" 100 mistralModel (by decide)⟩

/-- When TOON serialisation fails, `compare_formats` returns equal token counts
and zero savings. -/
theorem compare_formats_toon_error {C D : Type} (env : Env C D) (data : D)
    (model : String) (e : ToonFailure) (h : env.to_toon data = .error e) :
    compare_formats env data model =
      ⟨(count_tokens env (env.to_json_string data) model : ℚ),
       (count_tokens env (env.to_json_string data) model : ℚ), 0⟩ := by
  simp only [compare_formats, h]
  have hz : ((count_tokens env (env.to_json_string data) model : ℚ) -
      (count_tokens env (env.to_json_string data) model : ℚ)) /
      (count_tokens env (env.to_json_string data) model : ℚ) * 100 = 0 := by
    rw [sub_self, zero_div, zero_mul]
  split_ifs with hj
  · rw [hz]
  · rfl

/-- C1: every comparison result has non-negative token counts; its savings equal
`(json_tokens - toon_tokens) / json_tokens * 100` whenever `json_tokens > 0` and
`0` when `json_tokens = 0` (hence `0` whenever the counts are equal); and when
TOON text production fails the operation still returns, with `toon_tokens` set
equal to `json_tokens`. -/
theorem compare_formats_spec {C D : Type} (env : Env C D) (data : D)
    (model : String) :
    0 ≤ (compare_formats env data model).json_tokens ∧
    0 ≤ (compare_formats env data model).toon_tokens ∧
    (0 < (compare_formats env data model).json_tokens →
      (compare_formats env data model).savings =
        ((compare_formats env data model).json_tokens -
            (compare_formats env data model).toon_tokens) /
          (compare_formats env data model).json_tokens * 100) ∧
    ((compare_formats env data model).json_tokens = 0 →
      (compare_formats env data model).savings = 0) ∧
    ((compare_formats env data model).toon_tokens =
        (compare_formats env data model).json_tokens →
      (compare_formats env data model).savings = 0) ∧
    (∀ e : ToonFailure, env.to_toon data = .error e →
      (compare_formats env data model).toon_tokens =
        (compare_formats env data model).json_tokens) := by
  cases htoon : env.to_toon data with
  | error e =>
      rw [compare_formats_toon_error env data model e htoon]
      refine ⟨Nat.cast_nonneg _, Nat.cast_nonneg _, ?_, fun _ => rfl, fun _ => rfl,
        fun _ _ => rfl⟩
      intro _
      rw [sub_self, zero_div, zero_mul]
  | ok toon_str =>
      simp only [compare_formats, htoon]
      constructor
      · exact Nat.cast_nonneg _
      constructor
      · exact Nat.cast_nonneg _
      constructor
      · intro hpos
        have hj : 0 < count_tokens env (env.to_json_string data) model := by
          exact_mod_cast hpos
        rw [if_pos hj]
      constructor
      · intro hzero
        have hj : count_tokens env (env.to_json_string data) model = 0 := by
          exact_mod_cast hzero
        rw [if_neg (by omega)]
      constructor
      · intro heq
        split_ifs with hj
        · rw [heq, sub_self, zero_div, zero_mul]
        · rfl
      · intro e he
        exact absurd he (by simp)

/-- Witness for C1: with the TOON codec unavailable, the comparison for the
example environment has `toon_tokens = json_tokens`. -/
theorem compare_formats_spec_witness :
    (compare_formats envNoToon () "cl100k_base").toon_tokens =
      (compare_formats envNoToon () "cl100k_base").json_tokens :=
  (compare_formats_spec envNoToon () "cl100k_base").2.2.2.2.2
    (.runtimeError "toon-format package missing") rfl

/-- C4: for an upload whose filename passes the `.json` check and whose bytes
parse as JSON, a TOON-encoding failure does not fail the request: the recorded
message lands in `toon_error`, and the returned comparison has
`toon_tokens = json_tokens` and `savings = 0`. -/
theorem upload_graceful_spec {C D : Type} (env : Env C D) (filename : String)
    (contents : C) (data : D) (e : ToonFailure)
    (hname : pyEndsWith (pyLower filename) ".json" = true)
    (hparse : env.json_loads contents = some data)
    (htoon : env.to_toon data = .error e) :
    ∃ resp : UploadResponse,
      upload env filename contents = .ok resp ∧
      resp.toon = none ∧
      resp.toon_error = some (toon_error_of e) ∧
      resp.comparison.toon_tokens = resp.comparison.json_tokens ∧
      resp.comparison.savings = 0 := by
  have hres := compare_formats_toon_error env data "cl100k_base" e htoon
  refine ⟨⟨none, some (toon_error_of e),
    ⟨(count_tokens env (env.to_json_string data) "cl100k_base" : ℚ),
     (count_tokens env (env.to_json_string data) "cl100k_base" : ℚ), 0⟩,
    env.json_dumps data⟩, ?_, rfl, rfl, rfl, rfl⟩
  simp only [upload, hname, Bool.true_eq_false, if_false, hparse, htoon, hres]
  split_ifs with hcond
  · rfl
  · rfl

/-- Witness for C4: uploading `"data.json"` in the example environment (where the
TOON codec is missing) succeeds with the degraded comparison. -/
theorem upload_graceful_spec_witness :
    ∃ resp : UploadResponse,
      upload envNoToon "data.json" () = .ok resp ∧
      resp.toon = none ∧
      resp.toon_error = some (toon_error_of (.runtimeError "toon-format package missing")) ∧
      resp.comparison.toon_tokens = resp.comparison.json_tokens ∧
      resp.comparison.savings = 0 :=
  upload_graceful_spec envNoToon "data.json" () ()
    (.runtimeError "toon-format package missing") (by decide) rfl rfl

/-- C5: the upload endpoint answers 400 with detail `"Only JSON files are
supported"` exactly when the lowercased filename does not end in `".json"`, and
400 with detail `"Invalid JSON file"` exactly when the filename check passes but
the bytes do not parse as JSON. -/
theorem upload_reject_spec {C D : Type} (env : Env C D) (filename : String)
    (contents : C) :
    (upload env filename contents = .error ⟨400, "Only JSON files are supported"⟩ ↔
      pyEndsWith (pyLower filename) ".json" = false) ∧
    (upload env filename contents = .error ⟨400, "Invalid JSON file"⟩ ↔
      pyEndsWith (pyLower filename) ".json" = true ∧
        env.json_loads contents = none) := by
  cases hname : pyEndsWith (pyLower filename) ".json" with
  | false =>
      have hu : upload env filename contents =
          .error ⟨400, "Only JSON files are supported"⟩ := by
        simp [upload, hname]
      rw [hu]
      constructor
      · simp
      · constructor
        · intro h
          simp only [Except.error.injEq, HTTPError.mk.injEq] at h
          exact absurd h.2 (by decide)
        · rintro ⟨h, -⟩
          exact absurd h (by simp)
  | true =>
      cases hparse : env.json_loads contents with
      | none =>
          have hu : upload env filename contents =
              .error ⟨400, "Invalid JSON file"⟩ := by
            simp [upload, hname, hparse]
          rw [hu]
          constructor
          · constructor
            · intro h
              simp only [Except.error.injEq, HTTPError.mk.injEq] at h
              exact absurd h.2 (by decide)
            · intro h
              exact absurd h (by simp)
          · exact ⟨fun _ => ⟨rfl, rfl⟩, fun _ => rfl⟩
      | some data =>
          have hok : ∀ r : HTTPError, upload env filename contents = .error r → False := by
            intro r h
            rw [upload, hname] at h
            simp [hparse] at h
          constructor
          · constructor
            · intro h
              exact (hok _ h).elim
            · intro h
              exact absurd h (by simp)
          · constructor
            · intro h
              exact (hok _ h).elim
            · rintro ⟨-, h⟩
              exact absurd h (by simp)

/-- C9: in the spiral chart, the radius for series value `v` at angle `θ` is
`sqrt(v / max_tokens) * (θ / θ_max)` with `θ_max = 4π`, so the series equal to
`max_tokens` reaches radius 1 at the final angle whenever `max_tokens > 0`; and
the divisor `max_tokens = max(json_tokens, toon_tokens)` is computed with no
guard, so it is zero exactly when both token counts are zero. -/
theorem plot_spiral_spec (result : TokenComparisonResult) :
    (∀ v θ : ℝ, spiral_radius v ((spiral_max_tokens result : ℚ) : ℝ) θ =
        Real.sqrt (v / ((spiral_max_tokens result : ℚ) : ℝ)) * (θ / (4 * Real.pi))) ∧
    (0 < spiral_max_tokens result →
        spiral_radius ((spiral_max_tokens result : ℚ) : ℝ)
          ((spiral_max_tokens result : ℚ) : ℝ) spiral_theta_max = 1) ∧
    (result.json_tokens = 0 → result.toon_tokens = 0 →
        spiral_max_tokens result = 0) := by
  refine ⟨fun v θ => rfl, ?_, ?_⟩
  · intro h
    have hm : ((spiral_max_tokens result : ℚ) : ℝ) ≠ 0 := by
      have : (0 : ℝ) < ((spiral_max_tokens result : ℚ) : ℝ) := by exact_mod_cast h
      exact ne_of_gt this
    have hθ : spiral_theta_max ≠ 0 := by
      unfold spiral_theta_max
      exact mul_ne_zero (by norm_num) Real.pi_ne_zero
    unfold spiral_radius
    rw [div_self hm, Real.sqrt_one, div_self hθ, one_mul]
  · intro h1 h2
    unfold spiral_max_tokens
    rw [h1, h2]
    simp

/-- Witness for C9 at `json_tokens = 100`, `toon_tokens = 60`: the larger series
reaches radius 1 at the final angle. -/
theorem plot_spiral_spec_witness :
    spiral_radius ((spiral_max_tokens ⟨100, 60, 40⟩ : ℚ) : ℝ)
      ((spiral_max_tokens ⟨100, 60, 40⟩ : ℚ) : ℝ) spiral_theta_max = 1 :=
  (plot_spiral_spec ⟨100, 60, 40⟩).2.1
    (by rw [spiral_max_tokens]; norm_num)

end ToonTokenSavings
